import Mathlib

/-!
Shallow embedding of the Brand Finder matching core (`src/app.py`).

The reference table is a list of rows with three cells (`Product_Name`,
`Brand_Name`, `MRP`); in the application pipeline these three columns always
exist (the column-mapping rename guarantees it), so a pandas
`row.get(col, default)` returns the cell itself, and a missing (NaN) cell is
modelled as `none`.  A Python value flowing through the matcher is either a
string or the float NaN, modelled by `PyVal`; `str(nan)` is the literal text
"nan".
-/

namespace BrandFinder

/-- A Python value as it flows through the matcher: a string or float NaN. -/
inductive PyVal where
  | na : PyVal
  | s (val : String) : PyVal
deriving DecidableEq

/-- `pd.isna` on a scalar value. -/
def PyVal.isna : PyVal → Bool
  | .na => true
  | .s _ => false

/-- Python `str()` applied to a matcher value; `str(float("nan")) = "nan"`. -/
def pyStr : PyVal → String
  | .na => "nan"
  | .s t => t

/-- Python `str.strip()`: drop surrounding whitespace. -/
def pyStrip (s : String) : String :=
  String.mk (((s.data.dropWhile Char.isWhitespace).reverse.dropWhile
    Char.isWhitespace).reverse)

/-- Python `str.upper()` (ASCII case fold, as used by the app's data). -/
def pyUpper (s : String) : String :=
  String.mk (s.data.map Char.toUpper)

/-- Python substring test `need in hay`. -/
def strContains (hay need : String) : Bool :=
  decide (need.data <:+: hay.data)

/-- One row of the reference table; `none` cells are NaN. -/
structure Row where
  product : Option String
  brand : Option String
  mrp : Option String
deriving DecidableEq

/-- `row.get(col, default)` with the column present: the cell itself,
NaN when missing. -/
def cellVal : Option String → PyVal
  | none => PyVal.na
  | some v => PyVal.s v

/-- `str(row.get(col, ''))` with the column present: a NaN cell stringifies
to the literal text "nan". -/
def cellStr : Option String → String
  | none => "nan"
  | some v => v

/-- The exact-product-match filter
`brand_data['Product_Name'].str.upper() == product_name` for one row: the
reference cell is uppercased but NOT stripped; a NaN cell never matches. -/
def exactProdMatch (nq : String) (r : Row) : Bool :=
  match r.product with
  | some p => decide (pyUpper p = nq)
  | none => false

/-- The exact-brand-match filter
`brand_data['Brand_Name'].str.upper() == brand_name` for one row. -/
def exactBrandMatch (nb : String) (r : Row) : Bool :=
  match r.brand with
  | some b => decide (pyUpper b = nb)
  | none => false

/-- One row of the brand-substring pass: `brand_name` is the stripped cell
text, which must be non-empty and appear (uppercased) inside the query. -/
def brandSubMatch (nq : String) (r : Row) : Bool :=
  let bn := pyStrip (cellStr r.brand)
  !(decide (bn = "")) && strContains nq (pyUpper bn)

/-- One row of the product-substring pass: the stripped uppercased reference
product name must be non-empty and be a substring of the query or contain
the query. -/
def prodSubMatch (nq : String) (r : Row) : Bool :=
  let rp := pyUpper (pyStrip (cellStr r.product))
  !(decide (rp = "")) && (strContains nq rp || strContains rp nq)

/-- `find_brand_name(product_name, brand_data)` from `src/app.py`
(lines 7-33). -/
def find_brand_name (product_name : PyVal) (brand_data : List Row) : PyVal :=
  if product_name.isna then PyVal.s "Unknown"
  else
    let q := pyUpper (pyStrip (pyStr product_name))
    match brand_data.find? (exactProdMatch q) with
    | some row => cellVal row.brand
    | none =>
      match brand_data.find? (brandSubMatch q) with
      | some row => PyVal.s (pyStrip (cellStr row.brand))
      | none =>
        match brand_data.find? (prodSubMatch q) with
        | some row => cellVal row.brand
        | none => PyVal.s "Unknown"

/-- `find_mrp(product_name, brand_name, brand_data)` from `src/app.py`
(lines 35-62). -/
def find_mrp (product_name brand_name : PyVal) (brand_data : List Row) :
    PyVal :=
  if product_name.isna then PyVal.s "Unknown"
  else
    let q := pyUpper (pyStrip (pyStr product_name))
    let b := pyUpper (pyStrip (pyStr brand_name))
    match brand_data.find? (exactProdMatch q) with
    | some row => cellVal row.mrp
    | none =>
      match (if b ≠ "UNKNOWN" then brand_data.find? (exactBrandMatch b)
             else none) with
      | some row => cellVal row.mrp
      | none =>
        match brand_data.find? (prodSubMatch q) with
        | some row => cellVal row.mrp
        | none => PyVal.s "Unknown"

/-- `process_dataframe_sequential` (lines 64-95): resolve every brand first,
then every MRP using the just-computed brand of the same row.  Returns the
`Brand_Name` and `MRP` output columns, aligned with the input queries. -/
def process_dataframe_sequential (queries : List PyVal)
    (brand_data : List Row) : List PyVal × List PyVal :=
  let brands := queries.map (fun q => find_brand_name q brand_data)
  let mrps := (queries.zip brands).map (fun p => find_mrp p.1 p.2 brand_data)
  (brands, mrps)

/-- `total_products = len(result_df)` (line 208). -/
def total_products (results : List PyVal) : Nat := results.length

/-- `identified_brands = len(result_df[result_df['Brand_Name'] != 'Unknown'])`
(line 209). -/
def identified_brands (brands : List PyVal) : Nat :=
  (brands.filter (fun v => decide (v ≠ PyVal.s "Unknown"))).length

/-- `identified_mrp = len(result_df[result_df['MRP'] != 'Unknown'])`
(line 210). -/
def identified_mrp (mrps : List PyVal) : Nat :=
  (mrps.filter (fun v => decide (v ≠ PyVal.s "Unknown"))).length

/-- The displayed ratio `identified_brands/total_products` (line 220),
as an exact rational. -/
def brand_percentage (brands : List PyVal) : ℚ :=
  (identified_brands brands : ℚ) / (total_products brands : ℚ)

/-- Reference table for the C1 counterexample: row 1 has a product name with
a leading space. -/
def exC1 : List Row := [⟨some "Q", some "X", none⟩, ⟨some " X", some "A", none⟩]

/-- Reference table from the brand-substring precedence scenario. -/
def exC2 : List Row :=
  [⟨some "X", some "ACME", none⟩, ⟨some "ACME WIDGET", some "OTHER", none⟩]

/-- Reference table for the C4 counterexample: the brand cell has a leading
space. -/
def exC4 : List Row := [⟨some "P", some " B", some "10"⟩]

/-- Reference table for the amended-C4 witness: row 0 matches the known brand
exactly while row 1 would match the product-substring scan. -/
def exC4w : List Row :=
  [⟨some "ZZZ", some "B", some "10"⟩, ⟨some "Q WIDGET", some "C", some "99"⟩]

/-- Reference table from the end-to-end scenario. -/
def exC5 : List Row := [⟨some "Colgate Total", some "Colgate", some "120"⟩]

/-- Reference table for the statistics scenario. -/
def demoRef : List Row := [⟨some "A", some "B1", some "5"⟩]

/-- Ten queries of which exactly three resolve to a non-Unknown brand. -/
def demoQueries : List PyVal :=
  [PyVal.s "A", PyVal.s "A", PyVal.s "A", PyVal.s "Q1", PyVal.s "Q2",
   PyVal.s "Q3", PyVal.s "Q4", PyVal.s "Q5", PyVal.s "Q6", PyVal.s "Q7"]

/-! Helper lemmas. -/

/-- `List.find?` returns the element at the lowest index satisfying the
filter. -/
lemma find_first_of_get {α : Type} (p : α → Bool) (l : List α) (i : Nat)
    (a : α) (h : l[i]? = some a) (hp : p a = true)
    (hfirst : ∀ j, j < i → ∀ b, l[j]? = some b → p b = false) :
    l.find? p = some a := by
  induction l generalizing i with
  | nil => simp at h
  | cons x xs ih =>
    cases i with
    | zero =>
      simp only [List.getElem?_cons_zero, Option.some.injEq] at h
      subst h
      simp [List.find?_cons, hp]
    | succ j =>
      have hx : p x = false := hfirst 0 (Nat.succ_pos j) x (by simp)
      simp only [List.getElem?_cons_succ] at h
      rw [List.find?_cons_of_neg _ (by simp [hx])]
      exact ih j h fun k hk b hb =>
        hfirst (k + 1) (Nat.succ_lt_succ hk) b (by simpa using hb)

/-- Filtering a mapped list counts the preimages that pass the filter. -/
lemma length_filter_map {α β : Type} (f : α → β) (p : β → Bool)
    (l : List α) :
    ((l.map f).filter p).length = (l.filter (fun a => p (f a))).length := by
  induction l with
  | nil => rfl
  | cons x xs ih => by_cases h : p (f x) <;> simp [List.filter_cons, h, ih]

/-- Zipping a list with its own image under a map pairs each element with
its image. -/
lemma zip_map_self {α β : Type} (f : α → β) (l : List α) :
    l.zip (l.map f) = l.map (fun a => (a, f a)) := by
  induction l with
  | nil => rfl
  | cons x xs ih => simp [ih]

/-! Theorems for the claims. -/

/-- C1 counterexample: the query "X" trim-and-uppercases to the same string
as reference row 1's product name " X", yet `find_brand_name` does not
return that row's brand "A": the exact-match filter uppercases the reference
cell without stripping it, so the scan falls through to the brand-substring
pass and returns row 0's brand "X". -/
theorem c1_exact_counterexample :
    pyUpper (pyStrip "X") = pyUpper (pyStrip " X") ∧
    find_brand_name (PyVal.s "X") exC1 ≠ PyVal.s "A" ∧
    find_brand_name (PyVal.s "X") exC1 = PyVal.s "X" := by decide

/-- C1 (amended): for every query whose stripped-and-uppercased form equals
the uppercased (but NOT stripped) product name of some reference row,
`find_brand_name` returns that row's brand cell via the exact-match path,
and among such rows the lowest original row index wins. -/
theorem c1_exact_match_first_row (q : String) (ref : List Row) (i : Nat)
    (row : Row) (hi : ref[i]? = some row)
    (hm : exactProdMatch (pyUpper (pyStrip q)) row = true)
    (hfirst : ∀ j, j < i → ∀ r, ref[j]? = some r →
      exactProdMatch (pyUpper (pyStrip q)) r = false) :
    find_brand_name (PyVal.s q) ref = cellVal row.brand := by
  have hf : ref.find? (exactProdMatch (pyUpper (pyStrip q))) = some row :=
    find_first_of_get _ _ i row hi hm hfirst
  simp [find_brand_name, PyVal.isna, pyStr, hf]

/-- C1 witness: a concrete exact match through
`c1_exact_match_first_row`. -/
theorem c1_exact_match_first_row_witness :
    exactProdMatch (pyUpper (pyStrip "ACME"))
      (Row.mk (some "acme") (some "A1") none) = true ∧
    find_brand_name (PyVal.s "ACME")
      [Row.mk (some "acme") (some "A1") none] = cellVal (some "A1") :=
  ⟨by decide,
   c1_exact_match_first_row "ACME" [Row.mk (some "acme") (some "A1") none]
     0 (Row.mk (some "acme") (some "A1") none) rfl (by decide)
     (fun j hj r _ => absurd hj (Nat.not_lt_zero j))⟩

/-- C2: when no reference row matches the query exactly, a row passing the
brand-name-contained-in-query test decides the result ahead of every row of
the product-name-substring pass: the result is the first brand-pass row's
stripped brand cell, whatever the product pass would have matched.  In
particular, for the rows of `exC2` and the query "ACME WIDGET PRO" the
result is "ACME", not "OTHER". -/
theorem c2_brand_pass_precedence :
    (∀ (q : String) (ref : List Row) (i : Nat) (row : Row),
      ref.find? (exactProdMatch (pyUpper (pyStrip q))) = none →
      ref[i]? = some row →
      brandSubMatch (pyUpper (pyStrip q)) row = true →
      (∀ j, j < i → ∀ r, ref[j]? = some r →
        brandSubMatch (pyUpper (pyStrip q)) r = false) →
      find_brand_name (PyVal.s q) ref =
        PyVal.s (pyStrip (cellStr row.brand))) ∧
    find_brand_name (PyVal.s "ACME WIDGET PRO") exC2 = PyVal.s "ACME" := by
  constructor
  · intro q ref i row hne hi hm hfirst
    have hf : ref.find? (brandSubMatch (pyUpper (pyStrip q))) = some row :=
      find_first_of_get _ _ i row hi hm hfirst
    simp [find_brand_name, PyVal.isna, pyStr, hne, hf]
  · decide

/-- C2 witness: the universal part of `c2_brand_pass_precedence` applied to
the scenario's own rows. -/
theorem c2_brand_pass_precedence_witness :
    find_brand_name (PyVal.s "ACME WIDGET PRO") exC2 =
      PyVal.s (pyStrip (cellStr (some "ACME"))) :=
  c2_brand_pass_precedence.1 "ACME WIDGET PRO" exC2 0
    (Row.mk (some "X") (some "ACME") none) (by decide) (by decide)
    (by decide) (fun j hj r _ => absurd hj (Nat.not_lt_zero j))

/-- C3: with the `Brand_Name` column present (as the pipeline's column
rename guarantees), `iloc[0].get('Brand_Name', "Unknown")` returns the cell
itself, so a NaN brand cell makes `find_brand_name` return the float NaN,
not the sentinel string "Unknown": the `.get` default only fires when the
column label is absent. -/
theorem c3_nan_brand_cell_returned :
    find_brand_name (PyVal.s "X") [Row.mk (some "X") none (some "50")] =
      PyVal.na ∧
    PyVal.na ≠ PyVal.s "Unknown" := by decide

/-- C4 counterexample: the known brand "B" trim-and-uppercases to the same
string as reference row 0's brand cell " B", the query "Q" has no exact
product match, yet `find_mrp` does not return that row's MRP "10": the
exact-brand filter uppercases the reference cell without stripping it, so
the lookup falls through and returns "Unknown". -/
theorem c4_exact_brand_counterexample :
    pyUpper (pyStrip "B") = pyUpper (pyStrip " B") ∧
    pyUpper (pyStrip "B") ≠ "UNKNOWN" ∧
    exC4.find? (exactProdMatch (pyUpper (pyStrip "Q"))) = none ∧
    find_mrp (PyVal.s "Q") (PyVal.s "B") exC4 ≠ PyVal.s "10" ∧
    find_mrp (PyVal.s "Q") (PyVal.s "B") exC4 = PyVal.s "Unknown" := by
  decide

/-- C4 (amended): when the query has no exact product match and the known
brand's stripped-and-uppercased form is not "UNKNOWN" and equals the
uppercased (but NOT stripped) brand cell of some reference row, `find_mrp`
returns the first such row's MRP cell, ahead of the product-name substring
scan; `find_mrp` contains no brand-substring pass. -/
theorem c4_exact_brand_first_row (q kb : String) (ref : List Row) (i : Nat)
    (row : Row)
    (hne : ref.find? (exactProdMatch (pyUpper (pyStrip q))) = none)
    (hb : pyUpper (pyStrip kb) ≠ "UNKNOWN")
    (hi : ref[i]? = some row)
    (hm : exactBrandMatch (pyUpper (pyStrip kb)) row = true)
    (hfirst : ∀ j, j < i → ∀ r, ref[j]? = some r →
      exactBrandMatch (pyUpper (pyStrip kb)) r = false) :
    find_mrp (PyVal.s q) (PyVal.s kb) ref = cellVal row.mrp := by
  have hf : ref.find? (exactBrandMatch (pyUpper (pyStrip kb))) = some row :=
    find_first_of_get _ _ i row hi hm hfirst
  simp [find_mrp, PyVal.isna, pyStr, hne, hb, hf]

/-- C4 witness: `c4_exact_brand_first_row` on `exC4w`, whose row 1 would
match the product-substring scan with MRP "99" while the exact brand match
on row 0 wins with MRP "10". -/
theorem c4_exact_brand_first_row_witness :
    exC4w.find? (exactProdMatch (pyUpper (pyStrip "Q WIDGET PRO"))) = none ∧
    pyUpper (pyStrip "B") ≠ "UNKNOWN" ∧
    prodSubMatch (pyUpper (pyStrip "Q WIDGET PRO"))
      (Row.mk (some "Q WIDGET") (some "C") (some "99")) = true ∧
    find_mrp (PyVal.s "Q WIDGET PRO") (PyVal.s "B") exC4w =
      cellVal (some "10") :=
  ⟨by decide, by decide, by decide,
   c4_exact_brand_first_row "Q WIDGET PRO" "B" exC4w 0
     (Row.mk (some "ZZZ") (some "B") (some "10")) (by decide) (by decide)
     (by decide) (by decide)
     (fun j hj r _ => absurd hj (Nat.not_lt_zero j))⟩

/-- C5: the end-to-end scenario: with `exC5` as reference, the query
"COLGATE TOTAL 100G" has no exact product match, `find_brand_name` resolves
the brand "Colgate" through the brand-substring pass, and `find_mrp`, given
that brand, resolves the MRP "120" through the exact-brand fallback; the
batch driver produces exactly that pair. -/
theorem c5_end_to_end :
    exC5.find? (exactProdMatch (pyUpper (pyStrip "COLGATE TOTAL 100G")))
      = none ∧
    find_brand_name (PyVal.s "COLGATE TOTAL 100G") exC5 =
      PyVal.s "Colgate" ∧
    find_mrp (PyVal.s "COLGATE TOTAL 100G") (PyVal.s "Colgate") exC5 =
      PyVal.s "120" ∧
    process_dataframe_sequential [PyVal.s "COLGATE TOTAL 100G"] exC5 =
      ([PyVal.s "Colgate"], [PyVal.s "120"]) := by decide

/-- C6: a missing/NaN query makes both resolvers return "Unknown"
immediately; the result is the same for every reference table, so the index
is never consulted, and totality of the definitions rules out an
exception. -/
theorem c6_missing_query (q : PyVal) (h : q.isna = true) (b : PyVal)
    (ref ref2 : List Row) :
    find_brand_name q ref = PyVal.s "Unknown" ∧
    find_mrp q b ref = PyVal.s "Unknown" ∧
    find_brand_name q ref = find_brand_name q ref2 ∧
    find_mrp q b ref = find_mrp q b ref2 := by
  cases q with
  | na => simp [find_brand_name, find_mrp, PyVal.isna]
  | s v => simp [PyVal.isna] at h

/-- C6 witness: the NaN query against a non-trivial reference table. -/
theorem c6_missing_query_witness :
    PyVal.isna PyVal.na = true ∧
    (find_brand_name PyVal.na demoRef = PyVal.s "Unknown" ∧
     find_mrp PyVal.na (PyVal.s "Colgate") demoRef = PyVal.s "Unknown" ∧
     find_brand_name PyVal.na demoRef = find_brand_name PyVal.na [] ∧
     find_mrp PyVal.na (PyVal.s "Colgate") demoRef =
       find_mrp PyVal.na (PyVal.s "Colgate") []) :=
  ⟨rfl, c6_missing_query PyVal.na rfl (PyVal.s "Colgate") demoRef []⟩

/-- C7: with an empty reference table every query resolves to brand
"Unknown" and MRP "Unknown", and the whole batch pipeline returns columns
of "Unknown"; all definitions are total, so no exception can arise. -/
theorem c7_empty_reference (q b : PyVal) (qs : List PyVal) :
    find_brand_name q [] = PyVal.s "Unknown" ∧
    find_mrp q b [] = PyVal.s "Unknown" ∧
    process_dataframe_sequential qs [] =
      (List.replicate qs.length (PyVal.s "Unknown"),
       List.replicate qs.length (PyVal.s "Unknown")) := by
  refine ⟨by cases q <;> rfl, by cases q <;> simp [find_mrp, PyVal.isna], ?_⟩
  induction qs with
  | nil => rfl
  | cons x xs ih =>
    have h1 : find_brand_name x [] = PyVal.s "Unknown" := by
      cases x <;> rfl
    have h2 : find_mrp x (find_brand_name x []) [] = PyVal.s "Unknown" := by
      cases x <;> rfl
    simp only [process_dataframe_sequential, List.map_cons,
      List.zip_cons_cons, List.length_cons, List.replicate_succ,
      Prod.mk.injEq] at ih ⊢
    exact ⟨by rw [h1, ih.1], by rw [h2, ih.2]⟩

/-- C8: the batch driver is a pure function: identical inputs give
identical outputs; the brand column is the per-query brand resolution in
input order, the MRP column the per-query MRP resolution paired with that
same row's brand, and both output columns have one entry per input
query. -/
theorem c8_batch_deterministic (qs qs2 : List PyVal) (ref ref2 : List Row)
    (h1 : qs = qs2) (h2 : ref = ref2) :
    process_dataframe_sequential qs ref =
      process_dataframe_sequential qs2 ref2 ∧
    (process_dataframe_sequential qs ref).1 =
      qs.map (fun q => find_brand_name q ref) ∧
    (process_dataframe_sequential qs ref).2 =
      (qs.zip (qs.map (fun q => find_brand_name q ref))).map
        (fun p => find_mrp p.1 p.2 ref) ∧
    (process_dataframe_sequential qs ref).1.length = qs.length ∧
    (process_dataframe_sequential qs ref).2.length = qs.length := by
  subst h1; subst h2
  refine ⟨rfl, rfl, rfl, ?_, ?_⟩ <;>
    simp [process_dataframe_sequential]

/-- C8 witness: two textually identical runs on a concrete batch. -/
theorem c8_batch_deterministic_witness :
    process_dataframe_sequential [PyVal.na] demoRef =
      process_dataframe_sequential [PyVal.na] demoRef ∧
    (process_dataframe_sequential [PyVal.na] demoRef).1 =
      [PyVal.na].map (fun q => find_brand_name q demoRef) ∧
    (process_dataframe_sequential [PyVal.na] demoRef).2 =
      ([PyVal.na].zip ([PyVal.na].map
        (fun q => find_brand_name q demoRef))).map
        (fun p => find_mrp p.1 p.2 demoRef) ∧
    (process_dataframe_sequential [PyVal.na] demoRef).1.length =
      [PyVal.na].length ∧
    (process_dataframe_sequential [PyVal.na] demoRef).2.length =
      [PyVal.na].length :=
  c8_batch_deterministic [PyVal.na] [PyVal.na] demoRef demoRef rfl rfl

/-- C9: `total_products` is the number of queries, `identified_brands` and
`identified_mrp` count the queries whose resolved brand (resp. MRP) is not
the string "Unknown", and on the ten-query demo batch where exactly three
brands resolve the displayed ratio equals 30/100, i.e. 30.0%. -/
theorem c9_statistics :
    (∀ (qs : List PyVal) (ref : List Row),
      total_products (process_dataframe_sequential qs ref).1 = qs.length ∧
      identified_brands (process_dataframe_sequential qs ref).1 =
        (qs.filter (fun q =>
          decide (find_brand_name q ref ≠ PyVal.s "Unknown"))).length ∧
      identified_mrp (process_dataframe_sequential qs ref).2 =
        (qs.filter (fun q =>
          decide (find_mrp q (find_brand_name q ref) ref ≠
            PyVal.s "Unknown"))).length) ∧
    total_products (process_dataframe_sequential demoQueries demoRef).1
      = 10 ∧
    identified_brands (process_dataframe_sequential demoQueries demoRef).1
      = 3 ∧
    brand_percentage (process_dataframe_sequential demoQueries demoRef).1
      = 30 / 100 := by
  have hcount : ∀ (qs : List PyVal) (ref : List Row),
      total_products (process_dataframe_sequential qs ref).1 = qs.length ∧
      identified_brands (process_dataframe_sequential qs ref).1 =
        (qs.filter (fun q =>
          decide (find_brand_name q ref ≠ PyVal.s "Unknown"))).length ∧
      identified_mrp (process_dataframe_sequential qs ref).2 =
        (qs.filter (fun q =>
          decide (find_mrp q (find_brand_name q ref) ref ≠
            PyVal.s "Unknown"))).length := by
    intro qs ref
    refine ⟨by simp [process_dataframe_sequential, total_products], ?_, ?_⟩
    · simpa [process_dataframe_sequential, identified_brands] using
        length_filter_map (fun q => find_brand_name q ref)
          (fun v => decide (v ≠ PyVal.s "Unknown")) qs
    · have hz := zip_map_self (fun q => find_brand_name q ref) qs
      simp only [process_dataframe_sequential, identified_mrp, hz,
        List.map_map]
      simpa using
        length_filter_map
          (fun q => find_mrp q (find_brand_name q ref) ref)
          (fun v => decide (v ≠ PyVal.s "Unknown")) qs
  have h3 : identified_brands
      (process_dataframe_sequential demoQueries demoRef).1 = 3 := by decide
  have h10 : total_products
      (process_dataframe_sequential demoQueries demoRef).1 = 10 := by decide
  refine ⟨hcount, h10, h3, ?_⟩
  rw [brand_percentage, h3, h10]
  norm_num

/-- C10: a NaN `Brand_Name` cell is stringified to the literal text "nan"
in the substring passes, hence treated as a non-empty brand: for the query
"Banana" (whose normalization "BANANA" contains "NAN"), `find_brand_name`
matches the NaN-brand row in the brand-substring pass and returns the
string "nan"; likewise a NaN `Product_Name` cell acts as the product name
"nan" in `find_mrp`'s product-substring pass. -/
theorem c10_nan_cell_stringified :
    strContains (pyUpper (pyStrip "Banana")) "NAN" = true ∧
    find_brand_name (PyVal.s "Banana")
      [Row.mk (some "X") none (some "9")] = PyVal.s "nan" ∧
    find_mrp (PyVal.s "Banana") (PyVal.s "Unknown")
      [Row.mk none none (some "7")] = PyVal.s "7" := by decide

end BrandFinder
